import Mathlib

/-!
Verification of the Hearaway soundscape composition core.

Shallow embedding of `src/lib/audioUtils.ts` and `src/lib/soundMapping.ts`:
JS numbers are modelled as rationals (all arithmetic in these modules is
exact decimal arithmetic, min/max clamping and comparisons), WMO weather
codes as integers, the `SOUND_PATH_MAP` object as an association list with
JS-object lookup semantics, and the three `Math.random()` draws as explicit
rational arguments compared against the fixed probability thresholds.
-/

namespace Hearaway

/-- Weather intensity record, from `types` usage in `audioUtils.ts`:
`rain: float[0,1]`, `thunder: float[0,1]`, `snow: bool`, `fog: bool`,
`hasPrecipitation: bool`. -/
structure WeatherIntensity where
  rain : ℚ
  thunder : ℚ
  snow : Bool
  fog : Bool
  hasPrecipitation : Bool
deriving DecidableEq, Repr

/-- Embedding of `mapWeatherToIntensity` (audioUtils.ts lines 190-238):
starts from the all-zero record and applies the sequential `if` blocks
mutating it, one per WMO code range. -/
def mapWeatherToIntensity (weatherCode : ℤ) : WeatherIntensity :=
  let i0 : WeatherIntensity :=
    { rain := 0, thunder := 0, snow := false, fog := false, hasPrecipitation := false }
  -- Fog codes
  let i1 := if weatherCode = 45 ∨ weatherCode = 48 then { i0 with fog := true } else i0
  -- Drizzle codes (51-57)
  let i2 :=
    if 51 ≤ weatherCode ∧ weatherCode ≤ 57 then
      { i1 with
        rain := if weatherCode ≤ 53 then 0.2 else if weatherCode ≤ 55 then 0.35 else 0.5,
        hasPrecipitation := true }
    else i1
  -- Rain codes (61-67)
  let i3 :=
    if 61 ≤ weatherCode ∧ weatherCode ≤ 67 then
      { i2 with
        rain := if weatherCode ≤ 63 then 0.4 else if weatherCode ≤ 65 then 0.7 else 0.9,
        hasPrecipitation := true }
    else i2
  -- Snow codes (71-77, 85-86)
  let i4 :=
    if (71 ≤ weatherCode ∧ weatherCode ≤ 77) ∨ weatherCode = 85 ∨ weatherCode = 86 then
      { i3 with snow := true, hasPrecipitation := true, rain := 0.3 }
    else i3
  -- Rain shower codes (80-82)
  let i5 :=
    if 80 ≤ weatherCode ∧ weatherCode ≤ 82 then
      { i4 with
        rain := if weatherCode = 80 then 0.5 else if weatherCode = 81 then 0.75 else 1.0,
        hasPrecipitation := true }
    else i4
  -- Thunderstorm codes (95-99)
  let i6 :=
    if 95 ≤ weatherCode ∧ weatherCode ≤ 99 then
      { i5 with
        rain := 0.8,
        thunder := if weatherCode = 95 then 0.6 else if weatherCode = 96 then 0.8 else 1.0,
        hasPrecipitation := true }
    else i5
  i6

/-- Embedding of `calculateWindVolume` (audioUtils.ts lines 257-268). -/
def calculateWindVolume (windSpeedKph : ℚ) : ℚ :=
  if windSpeedKph < 10 then
    0.2
  else if windSpeedKph < 25 then
    0.2 + ((windSpeedKph - 10) / 15) * 0.3
  else if windSpeedKph < 40 then
    0.5 + ((windSpeedKph - 25) / 15) * 0.3
  else
    min 1.0 (0.8 + ((windSpeedKph - 40) / 20) * 0.2)

/-- Embedding of the static registry `SOUND_PATH_MAP` (audioUtils.ts lines
17-91): association list of soundId to path-with-extension, in source order. -/
def SOUND_PATH_MAP : List (String × String) := [
  -- Animals
  ("birds_far", "animals/animals-birds-far-01.ogg"),
  ("birds-forest_light_far", "animals/animals-birds-forest-light-far-01.ogg"),
  ("frogs_close", "animals/animals-frogs-close-01.ogg"),
  ("wind-light_birds_medium", "animals/animals-wind-light-birds-medium-01.ogg"),
  ("cicada_heavy", "animals/animals-cicada-heavy-01.ogg"),
  ("wind-leaves_rustling-light_birds_light",
    "animals/animals-wind-leaves-rustling-light-birds-light-01.ogg"),
  ("wind-leaves_rustling-light_birds_light-2",
    "animals/animals-wind-leaves-rustling-light-birds-light-02.ogg"),
  ("wind-leaves_rustling-light_birds_light-3",
    "animals/animals-wind-leaves-rustling-light-birds-light-03.ogg"),
  ("wind-leaves_rustling-light_birds_medium",
    "animals/animals-wind-leaves-rustling-light-birds-medium-01.ogg"),
  -- City
  ("cars-passing_low_far", "city/city-cars-passing-low-far-01.ogg"),
  ("cars-passing_medium_close", "city/city-cars-passing-medium-close-01.ogg"),
  ("chatter-footsteps_medium", "city/city-chatter-footsteps-medium-01.ogg"),
  ("church-bells_medium_far", "city/city-church-bells-medium-far-01.ogg"),
  ("rain-wind-city-traffic_medium_far", "city/city-rain-wind-city-traffic-medium-far-01.ogg"),
  ("traffic_medium_close", "city/city-traffic-medium-close-01.ogg"),
  ("traffic_medium_far", "city/city-traffic-medium-far-01.ogg"),
  ("plane_overhead-light", "city/city-plane-overhead-light-01.ogg"),
  -- Desert
  ("desert-wind_light", "desert/desert-wind-light-01.ogg"),
  ("desert-cricket_heavy_close", "desert/desert-cricket-heavy-close.ogg"),
  ("desert-birds_bugs_light", "desert/desert-birds-medium-bugs-light.ogg"),
  -- Thunder
  ("thunder_light_far", "thunder/thunder-light-far-01.ogg"),
  ("thunder_medium_close", "thunder/thunder-medium-close-01.ogg"),
  ("thunder_light_far_rain_medium", "thunder/thunder-light-far-rain-medium-01.ogg"),
  ("thunder_rolling_light_far", "thunder/thunder-rolling-light-far-rain-light-01.ogg"),
  -- Water
  ("drops-bucket-collecting-drips_light_close",
    "water/water-drops-bucket-collecting-drips-light-close-01.ogg"),
  ("rain_light", "water/water-rain-light-01.ogg"),
  ("rain_medium", "water/water-rain-medium-01.ogg"),
  ("rain_medium_close", "water/water-rain-medium-close-01.ogg"),
  ("stream_light_close", "water/water-stream-light-close-01.ogg"),
  ("stream_medium", "water/water-stream-medium-01.ogg"),
  ("waterfall_light", "water/water-waterfall-light-01.ogg"),
  ("waterfall_medium", "water/water-waterfall-medium-01.ogg"),
  ("waves_light_close", "water/water-waves-light-close-01.ogg"),
  ("waves_light_far", "water/water-waves-light-far-01.ogg"),
  ("waves_medium_close", "water/water-waves-medium-close-01.ogg"),
  ("waves_medium_close_2", "water/water-waves-medium-close-02.ogg"),
  ("waves_medium_far", "water/water-waves-medium-far-01.ogg"),
  ("waves_small_close", "water/water-waves-small-close-01.ogg"),
  ("wind-leaves_rustling-medium_rain_light",
    "water/water-wind-leaves-rustling-medium-rain-light-01.ogg"),
  ("wind-leaves_rustling-medium_rain_medium",
    "water/water-wind-leaves-rustling-medium-rain-medium-01.ogg"),
  -- Wind
  ("wind_autumn", "wind/wind-autumn-01.ogg"),
  ("wind_coastal_birds", "wind/wind-coastal-birds-01.ogg"),
  ("wind_coastal_medium_far", "wind/wind-coastal-medium-far-01.ogg"),
  ("wind_field_strong", "wind/wind-field-strong-01.ogg"),
  ("wind_forest_medium", "wind/wind-forest-medium-01.ogg"),
  ("wind_grass_strong", "wind/wind-grass-strong-01.ogg"),
  ("wind-leaves_rustling-heavy", "wind/wind-leaves-rustling-heavy-01.ogg"),
  ("wind-leaves_rustling-heavy-2", "wind/wind-leaves-rustling-heavy-02.ogg"),
  ("wind-leaves_rustling-heavy-3", "wind/wind-leaves-rustling-heavy-03.ogg"),
  ("wind-leaves_rustling-heavy_storm", "wind/wind-leaves-rustling-heavy-storm-01.ogg"),
  ("wind-leaves_rustling-medium", "wind/wind-leaves-rustling-medium-01.ogg"),
  -- Other
  ("fan_close", "other/other-fan-close-01.ogg"),
  ("windchimes_close", "other/other-windchimes-close-01.ogg")]

/-- JS-object key lookup on the association list (first matching key wins;
keys here are pairwise distinct, so order is immaterial). -/
def lookupId : String → List (String × String) → Option String
  | _, [] => none
  | s, (k, v) :: rest => if k = s then some v else lookupId s rest

/-- Embedding of `getAudioPath` (audioUtils.ts lines 103-112). The thrown
`Unknown sound ID` error is modelled as `none`; in the source the guard is
the JS falsy test `!pathWithExtension`, which also fires on an empty-string
entry, so that check is kept. -/
def getAudioPath (soundId : String) : Option String :=
  match lookupId soundId SOUND_PATH_MAP with
  | none => none
  | some pathWithExtension =>
      if pathWithExtension = "" then none else some ("/audio/" ++ pathWithExtension)

/-- The property names a plain JavaScript object literal inherits from
`Object.prototype`. `SOUND_PATH_MAP` is an object literal, so bracket
indexing `SOUND_PATH_MAP[soundId]` with one of these names finds the
inherited member even though it is not an own key of the registry. -/
def OBJECT_PROTOTYPE_PROPS : List String :=
  ["constructor", "hasOwnProperty", "isPrototypeOf", "propertyIsEnumerable",
   "toLocaleString", "toString", "valueOf", "__defineGetter__",
   "__defineSetter__", "__lookupGetter__", "__lookupSetter__", "__proto__"]

/-- Result of `getAudioPath` under full JavaScript lookup semantics:
the thrown `Unknown sound ID` error, the canonical `/audio/`-prefixed
registry path, or the string coercion of an inherited `Object.prototype`
member (template-literal interpolation of a function or object value, never
a registry path). -/
inductive JsAudioPathResult where
  | thrown
  | path (p : String)
  | coerced
deriving DecidableEq, Repr

/-- Embedding of `getAudioPath` (audioUtils.ts lines 103-112) refined with
JavaScript property-lookup semantics: an own key of `SOUND_PATH_MAP` yields
its (non-empty) string entry, and the falsy guard throws only when the
lookup result is falsy. A name inherited from `Object.prototype` (e.g.
`toString`) yields a truthy non-string value, so the guard is not taken and
the template literal returns a coerced junk path instead of throwing; only
names that are neither own keys nor inherited members give `undefined` and
throw. -/
def getAudioPathJs (soundId : String) : JsAudioPathResult :=
  match lookupId soundId SOUND_PATH_MAP with
  | some pathWithExtension =>
      if pathWithExtension = "" then JsAudioPathResult.thrown
      else JsAudioPathResult.path ("/audio/" ++ pathWithExtension)
  | none =>
      if soundId ∈ OBJECT_PROTOTYPE_PROPS then JsAudioPathResult.coerced
      else JsAudioPathResult.thrown

/-- Directory component of a registry path: the characters before the first
slash (e.g. `dirOf "water/water-rain-light-01.ogg" = "water"`). -/
def dirOf (p : String) : String :=
  ⟨p.data.takeWhile (fun c => c ≠ '/')⟩

/-- The soundId resolves, through the registry, to a file in directory `d`. -/
def resolvesToDir (soundId : String) (d : String) : Prop :=
  ∃ p, lookupId soundId SOUND_PATH_MAP = some p ∧ dirOf p = d

instance (soundId d : String) : Decidable (resolvesToDir soundId d) := by
  unfold resolvesToDir
  infer_instance

/-- Time-of-day classification (spec section 3; values used by
`soundMapping.ts` via string comparison). -/
inductive TimeOfDay where
  | day
  | evening
  | night
deriving DecidableEq, Repr

/-- Sound layer descriptor, from `types/audio` usage in `soundMapping.ts`:
`soundId`, `volume`, `loop`, `category` (the strings `base`, `weather`,
`accent`), optional `fadeInDuration` and `startDelay`. -/
structure SoundLayer where
  soundId : String
  volume : ℚ
  loop : Bool
  category : String
  fadeInDuration : Option ℚ := none
  startDelay : Option ℚ := none
deriving DecidableEq, Repr

/-- Probability of including bird sounds (soundMapping.ts line 18). -/
def BIRD_SOUND_PROBABILITY : ℚ := 0.3

/-- Probability of including cricket layers (soundMapping.ts line 24). -/
def CRICKET_SOUND_PROBABILITY : ℚ := 0.3

/-- Probability of including frog layers (soundMapping.ts line 30). -/
def FROG_SOUND_PROBABILITY : ℚ := 0.3

/-- Embedding of `shouldIncludeBirds` (soundMapping.ts lines 37-39): the
`Math.random()` draw is the explicit argument `u`. -/
def shouldIncludeBirds (u : ℚ) : Bool :=
  u < BIRD_SOUND_PROBABILITY

/-- Embedding of `shouldIncludeCrickets` (soundMapping.ts lines 46-48). -/
def shouldIncludeCrickets (u : ℚ) : Bool :=
  u < CRICKET_SOUND_PROBABILITY

/-- Embedding of `shouldIncludeFrogs` (soundMapping.ts lines 55-57). -/
def shouldIncludeFrogs (u : ℚ) : Bool :=
  u < FROG_SOUND_PROBABILITY

/-- Embedding of `getCitySounds` (soundMapping.ts lines 200-334); the
`layers.push` sequence becomes list concatenation in push order. -/
def getCitySounds (timeOfDay : TimeOfDay) (weather : WeatherIntensity)
    (windSpeedKph : ℚ) (_includeBirds _includeCrickets : Bool) : List SoundLayer :=
  let windVolume := calculateWindVolume windSpeedKph
  -- Core traffic bed + distant traffic
  [{ soundId := "traffic_medium_close",
     volume := if timeOfDay = TimeOfDay.night then 0.4 else 0.55,
     loop := true, category := "base" },
   { soundId := "traffic_medium_far", volume := 0.28, loop := true, category := "base",
     fadeInDuration := some 4 }]
  -- Pedestrian ambience - calmer at night or during heavy rain
  ++ (if ¬timeOfDay = TimeOfDay.night ∧
        (weather.hasPrecipitation = false ∨ weather.rain < 0.4) then
      [{ soundId := "chatter-footsteps_medium", volume := 0.35, loop := true,
         category := "base", fadeInDuration := some 3 }]
    else [])
  -- Passing cars add movement during drier periods
  ++ (if weather.hasPrecipitation = false then
      [{ soundId := "cars-passing_medium_close", volume := 0.25, loop := true,
         category := "accent", fadeInDuration := some 2, startDelay := some 6 },
       { soundId := "cars-passing_low_far", volume := 0.18, loop := true,
         category := "accent", fadeInDuration := some 5, startDelay := some 14 }]
    else [])
  -- Weather: rain-soaked asphalt blend + interior drip
  ++ (if weather.hasPrecipitation = true then
      [{ soundId := "rain-wind-city-traffic_medium_far",
         volume := min 0.75 (0.45 + weather.rain * 0.6), loop := true,
         category := "weather", fadeInDuration := some 5 },
       { soundId := "drops-bucket-collecting-drips_light_close", volume := 0.18,
         loop := true, category := "accent", fadeInDuration := some 6,
         startDelay := some 20 }]
    else [])
  -- Sky and vertical accents when skies are clearer
  ++ (if weather.hasPrecipitation = false ∧ weather.thunder = 0 ∧ windSpeedKph < 25 then
      [{ soundId := "plane_overhead-light", volume := 0.22, loop := true,
         category := "accent", fadeInDuration := some 4, startDelay := some 30 }]
    else [])
  -- Breezy residential touches
  ++ (if windVolume > 0.35 ∧ weather.hasPrecipitation = false then
      [{ soundId := "windchimes_close", volume := min 0.22 (windVolume * 0.35),
         loop := true, category := "accent", fadeInDuration := some 6,
         startDelay := some 18 }]
    else [])
  -- Late-night interior hum
  ++ (if timeOfDay = TimeOfDay.night then
      [{ soundId := "fan_close", volume := 0.2, loop := true, category := "base",
         fadeInDuration := some 8 }]
    else [])
  -- Cultural accent at sunrise/sunset
  ++ (if timeOfDay = TimeOfDay.evening then
      [{ soundId := "church-bells_medium_far", volume := 0.22, loop := true,
         category := "accent", fadeInDuration := some 3, startDelay := some 10 }]
    else [])

/-- Embedding of `getForestSounds` (soundMapping.ts lines 345-430). -/
def getForestSounds (timeOfDay : TimeOfDay) (weather : WeatherIntensity)
    (windSpeedKph : ℚ) (includeBirds includeCrickets : Bool) : List SoundLayer :=
  let windVolume := calculateWindVolume windSpeedKph
  -- Base: Birds + rustling canopy (daytime, optional)
  (if timeOfDay = TimeOfDay.day ∧ includeBirds = true then
      [{ soundId := "birds-forest_light_far", volume := 0.28, loop := true,
         category := "base" },
       { soundId := "wind-light_birds_medium", volume := 0.22, loop := true,
         category := "base", fadeInDuration := some 5, startDelay := some 10 }]
    else [])
  -- Base: Forest wind bed
  ++ [{ soundId := "wind_forest_medium", volume := max 0.3 (windVolume * 0.7),
        loop := true, category := "base", fadeInDuration := some 4 }]
  -- Weather: Rain through canopy + dripping leaves
  ++ (if weather.hasPrecipitation = true then
      [{ soundId := "rain_medium", volume := min 0.65 (weather.rain * 0.8),
         loop := true, category := "weather", fadeInDuration := some 6 },
       { soundId := "wind-leaves_rustling-medium_rain_light",
         volume := min 0.35 (0.18 + weather.rain * 0.4), loop := true,
         category := "base", fadeInDuration := some 7 }]
    else [])
  -- Weather: Thunder variants
  ++ (if weather.thunder > 0 then
      [{ soundId := if weather.thunder > 0.6 then "thunder_medium_close"
           else "thunder_light_far_rain_medium",
         volume := min 0.5 (weather.thunder * 0.65), loop := true,
         category := "weather", fadeInDuration := some 3 }]
    else [])
  -- Evening cicadas / night insects (30% chance)
  ++ (if (timeOfDay = TimeOfDay.evening ∨ timeOfDay = TimeOfDay.night) ∧
        includeCrickets = true then
      [{ soundId := "cicada_heavy",
         volume := if timeOfDay = TimeOfDay.night then 0.32 else 0.24,
         loop := true, category := "accent", fadeInDuration := some 8 }]
    else [])

/-- Embedding of `getFieldSounds` (soundMapping.ts lines 441-518). -/
def getFieldSounds (timeOfDay : TimeOfDay) (weather : WeatherIntensity)
    (windSpeedKph : ℚ) (includeBirds includeCrickets : Bool) : List SoundLayer :=
  let windVolume := calculateWindVolume windSpeedKph
  -- Base: Distant birds (daytime, 30% chance)
  (if timeOfDay = TimeOfDay.day ∧ includeBirds = true then
      [{ soundId := "birds_far", volume := 0.05, loop := true, category := "base" },
       { soundId := "wind-leaves_rustling-light_birds_light", volume := 0.18,
         loop := true, category := "base", fadeInDuration := some 4,
         startDelay := some 8 }]
    else [])
  -- Base: Strong wind through grass/field (prominent in open areas)
  ++ [{ soundId := if windSpeedKph > 20 then "wind_field_strong" else "wind_grass_strong",
        volume := max 0.4 (windVolume * 0.9), loop := true, category := "base",
        fadeInDuration := some 3 }]
  -- Weather: Light rain on grass
  ++ (if weather.hasPrecipitation = true then
      [{ soundId := if weather.rain > 0.6 then "rain_medium_close" else "rain_light",
         volume := min 0.6 (weather.rain * 0.75), loop := true,
         category := "weather", fadeInDuration := some 5 }]
    else [])
  -- Weather: Distant thunder
  ++ (if weather.thunder > 0 then
      [{ soundId := if weather.thunder > 0.6 then "thunder_medium_close"
           else "thunder_rolling_light_far",
         volume := min 0.45 (weather.thunder * 0.55), loop := true,
         category := "weather", fadeInDuration := some 3 }]
    else [])
  -- Time accent: Summer crickets (evening/night, 30% chance)
  ++ (if (timeOfDay = TimeOfDay.evening ∨ timeOfDay = TimeOfDay.night) ∧
        includeCrickets = true then
      [{ soundId := "desert-cricket_heavy_close",
         volume := if timeOfDay = TimeOfDay.night then 0.28 else 0.2,
         loop := true, category := "accent", fadeInDuration := some 10 }]
    else [])

/-- Embedding of `getBeachSounds` (soundMapping.ts lines 529-604). -/
def getBeachSounds (timeOfDay : TimeOfDay) (weather : WeatherIntensity)
    (windSpeedKph : ℚ) (includeBirds _includeCrickets : Bool) : List SoundLayer :=
  let windVolume := calculateWindVolume windSpeedKph
  -- Base: Ocean waves (medium, close enough to hear detail) + distant surf
  [{ soundId := if windSpeedKph > 25 then "waves_medium_close_2" else "waves_medium_close",
     volume := 0.64, loop := true, category := "base" },
   { soundId := "waves_light_far", volume := 0.28, loop := true, category := "base",
     fadeInDuration := some 8 }]
  -- Base: Coastal wind with/without birds
  ++ (if timeOfDay = TimeOfDay.day ∧ includeBirds = true then
      [{ soundId := "wind_coastal_birds", volume := max 0.22 (windVolume * 0.4),
         loop := true, category := "base", fadeInDuration := some 4 }]
    else
      [{ soundId := "wind_coastal_medium_far", volume := max 0.35 (windVolume * 0.55),
         loop := true, category := "base", fadeInDuration := some 4 }])
  -- Weather: Rain on beach
  ++ (if weather.hasPrecipitation = true then
      [{ soundId := if weather.rain > 0.6 then "rain_medium_close" else "rain_light",
         volume := min 0.55 (0.35 + weather.rain * 0.6), loop := true,
         category := "weather", fadeInDuration := some 5 }]
    else [])
  -- Weather: Thunder over ocean
  ++ (if weather.thunder > 0 then
      [{ soundId := if weather.thunder > 0.6 then "thunder_medium_close"
           else "thunder_light_far",
         volume := min 0.6 (weather.thunder * 0.75), loop := true,
         category := "weather", fadeInDuration := some 2 }]
    else [])

/-- Embedding of `getLakeSounds` (soundMapping.ts lines 615-724). -/
def getLakeSounds (timeOfDay : TimeOfDay) (weather : WeatherIntensity)
    (windSpeedKph : ℚ) (includeBirds includeCrickets includeFrogs : Bool) :
    List SoundLayer :=
  let windVolume := calculateWindVolume windSpeedKph
  -- Base: Small waves lapping at shore
  [{ soundId := "waves_small_close", volume := 0.5, loop := true, category := "base" },
   { soundId := "waves_light_close", volume := 0.25, loop := true, category := "base",
     fadeInDuration := some 7 },
   -- Base: Gentle wind (lakes are more sheltered)
   { soundId := "wind_autumn", volume := max 0.25 (windVolume * 0.5), loop := true,
     category := "base", fadeInDuration := some 5 }]
  -- Base: Birds (daytime, 30% chance)
  ++ (if timeOfDay = TimeOfDay.day ∧ includeBirds = true then
      [{ soundId := "birds_far", volume := 0.2, loop := true, category := "base",
         fadeInDuration := some 3 },
       { soundId := "wind-leaves_rustling-light_birds_light-2", volume := 0.16,
         loop := true, category := "base", fadeInDuration := some 5,
         startDelay := some 12 }]
    else [])
  -- Weather: Rain on lake water
  ++ (if weather.hasPrecipitation = true then
      [{ soundId := "rain_light", volume := min 0.6 (weather.rain * 0.75),
         loop := true, category := "weather", fadeInDuration := some 6 },
       { soundId := "stream_light_close", volume := min 0.22 (0.1 + weather.rain * 0.3),
         loop := true, category := "base", fadeInDuration := some 8 }]
    else [])
  -- Weather: Distant thunder
  ++ (if weather.thunder > 0 then
      [{ soundId := "thunder_rolling_light_far", volume := min 0.5 (weather.thunder * 0.6),
         loop := true, category := "weather", fadeInDuration := some 3 }]
    else [])
  -- Time accent: Frogs at night (30% chance), else cicadas
  ++ (if timeOfDay = TimeOfDay.night ∧ includeFrogs = true then
      [{ soundId := "frogs_close", volume := 0.35, loop := true, category := "accent",
         fadeInDuration := some 12 }]
    else if (timeOfDay = TimeOfDay.evening ∨ timeOfDay = TimeOfDay.night) ∧
        includeCrickets = true then
      [{ soundId := "cicada_heavy", volume := 0.22, loop := true, category := "accent",
         fadeInDuration := some 10 }]
    else [])

/-- Embedding of `getOceanSounds` (soundMapping.ts lines 735-807). -/
def getOceanSounds (timeOfDay : TimeOfDay) (weather : WeatherIntensity)
    (windSpeedKph : ℚ) (includeBirds _includeCrickets : Bool) : List SoundLayer :=
  let windVolume := calculateWindVolume windSpeedKph
  -- Base: Distant ocean waves + close accents + steady coastal wind
  [{ soundId := "waves_medium_far", volume := 0.62, loop := true, category := "base" },
   { soundId := "waves_light_close", volume := 0.26, loop := true, category := "base",
     fadeInDuration := some 9 },
   { soundId := "wind_coastal_medium_far", volume := max 0.4 (windVolume * 0.7),
     loop := true, category := "base", fadeInDuration := some 4 }]
  ++ (if timeOfDay = TimeOfDay.day ∧ includeBirds = true then
      [{ soundId := "wind_coastal_birds", volume := max 0.2 (windVolume * 0.35),
         loop := true, category := "base", fadeInDuration := some 6,
         startDelay := some 12 }]
    else [])
  -- Weather: Rain on ocean
  ++ (if weather.hasPrecipitation = true then
      [{ soundId := if weather.rain > 0.6 then "rain_medium_close" else "rain_medium",
         volume := min 0.6 (weather.rain * 0.75), loop := true,
         category := "weather", fadeInDuration := some 5 }]
    else [])
  -- Weather: Thunder over water
  ++ (if weather.thunder > 0 then
      [{ soundId := if weather.thunder > 0.7 then "thunder_medium_close"
           else "thunder_light_far_rain_medium",
         volume := min 0.65 (weather.thunder * 0.8), loop := true,
         category := "weather", fadeInDuration := some 2 }]
    else [])

/-- Embedding of `getDesertSounds` (soundMapping.ts lines 818-892). -/
def getDesertSounds (timeOfDay : TimeOfDay) (weather : WeatherIntensity)
    (windSpeedKph : ℚ) (includeBirds includeCrickets : Bool) : List SoundLayer :=
  let windVolume := calculateWindVolume windSpeedKph
  -- Base: Wind (primary desert sound)
  [{ soundId := "desert-wind_light", volume := max 0.32 (windVolume * 0.7),
     loop := true, category := "base", fadeInDuration := some 3 },
   { soundId := "wind_field_strong", volume := max 0.2 (windVolume * 0.45),
     loop := true, category := "base", fadeInDuration := some 6,
     startDelay := some 10 }]
  -- Optional: Very subtle distant birds (day only, low volume, 30% chance)
  ++ (if timeOfDay = TimeOfDay.day ∧ includeBirds = true then
      [{ soundId := "desert-birds_bugs_light", volume := 0.18, loop := true,
         category := "base", fadeInDuration := some 5 }]
    else [])
  ++ (if (timeOfDay = TimeOfDay.evening ∨ timeOfDay = TimeOfDay.night) ∧
        includeCrickets = true then
      [{ soundId := "desert-cricket_heavy_close",
         volume := if timeOfDay = TimeOfDay.night then 0.26 else 0.2,
         loop := true, category := "accent", fadeInDuration := some 9 }]
    else [])
  -- Weather: Rain (rare in desert, but dramatic when it occurs)
  ++ (if weather.hasPrecipitation = true then
      [{ soundId := if weather.rain > 0.4 then "rain_medium_close" else "rain_light",
         volume := min 0.5 (weather.rain * 0.65), loop := true,
         category := "weather", fadeInDuration := some 6 }]
    else [])
  -- Weather: Thunder (desert storms are intense)
  ++ (if weather.thunder > 0 then
      [{ soundId := if weather.thunder > 0.7 then "thunder_medium_close"
           else "thunder_rolling_light_far",
         volume := min 0.7 (weather.thunder * 0.85), loop := true,
         category := "weather", fadeInDuration := some 2 }]
    else [])

/-- Embedding of `getSoundLayers` (soundMapping.ts lines 84-189): the biome
is a runtime string (the `BiomeType` union), the three `Math.random()` draws
are the explicit arguments `u1 u2 u3`, and the `switch` with no `default`
becomes an equality chain falling through to the empty list. -/
def getSoundLayers (biome : String) (timeOfDay : TimeOfDay) (weatherCode : ℤ)
    (windSpeedKph : ℚ) (_humidity : ℚ) (u1 u2 u3 : ℚ) : List SoundLayer :=
  let weatherIntensity := mapWeatherToIntensity weatherCode
  let includeBirds := shouldIncludeBirds u1
  let includeCrickets := shouldIncludeCrickets u2
  let includeFrogs := shouldIncludeFrogs u3
  if biome = "city" then
    getCitySounds timeOfDay weatherIntensity windSpeedKph includeBirds includeCrickets
  else if biome = "forest" then
    getForestSounds timeOfDay weatherIntensity windSpeedKph includeBirds includeCrickets
  else if biome = "field" then
    getFieldSounds timeOfDay weatherIntensity windSpeedKph includeBirds includeCrickets
  else if biome = "beach" then
    getBeachSounds timeOfDay weatherIntensity windSpeedKph includeBirds includeCrickets
  else if biome = "lake" then
    getLakeSounds timeOfDay weatherIntensity windSpeedKph includeBirds includeCrickets
      includeFrogs
  else if biome = "ocean" then
    getOceanSounds timeOfDay weatherIntensity windSpeedKph includeBirds includeCrickets
  else if biome = "desert" then
    getDesertSounds timeOfDay weatherIntensity windSpeedKph includeBirds includeCrickets
  else
    []

/-- The seven biome strings handled by the composer switch. -/
def knownBiomes : List String :=
  ["city", "forest", "field", "beach", "lake", "ocean", "desert"]

/-! ## Helper lemmas -/

/-- The wind-volume curve always lies in `[0.2, 1]`. -/
lemma calculateWindVolume_bounds (w : ℚ) :
    0.2 ≤ calculateWindVolume w ∧ calculateWindVolume w ≤ 1 := by
  unfold calculateWindVolume
  simp only [min_def]
  split_ifs <;> constructor <;> linarith

/-- The wind-volume curve is monotone non-decreasing. -/
lemma calculateWindVolume_mono {x y : ℚ} (hxy : x ≤ y) :
    calculateWindVolume x ≤ calculateWindVolume y := by
  unfold calculateWindVolume
  simp only [min_def]
  split_ifs <;> linarith

/-- One-sided Lipschitz bound with constant `1/50` (the maximal slope). -/
lemma calculateWindVolume_lipschitz {x y : ℚ} (hxy : x ≤ y) :
    calculateWindVolume y - calculateWindVolume x ≤ (y - x) * (1 / 50) := by
  unfold calculateWindVolume
  simp only [min_def]
  split_ifs <;> linarith

/-- Two-sided Lipschitz bound for the wind-volume curve. -/
lemma calculateWindVolume_abs_lipschitz (x y : ℚ) :
    |calculateWindVolume y - calculateWindVolume x| ≤ |y - x| * (1 / 50) := by
  rcases le_total x y with h | h
  · rw [abs_of_nonneg (sub_nonneg.2 (calculateWindVolume_mono h)),
      abs_of_nonneg (sub_nonneg.2 h)]
    exact calculateWindVolume_lipschitz h
  · rw [abs_of_nonpos (sub_nonpos.2 (calculateWindVolume_mono h)),
      abs_of_nonpos (sub_nonpos.2 h)]
    have := calculateWindVolume_lipschitz h
    linarith

/-- Evaluation of `mapWeatherToIntensity` outside every handled code range. -/
lemma mapWeatherToIntensity_other {c : ℤ}
    (h45 : ¬(c = 45 ∨ c = 48))
    (h51 : ¬(51 ≤ c ∧ c ≤ 57))
    (h61 : ¬(61 ≤ c ∧ c ≤ 67))
    (h71 : ¬((71 ≤ c ∧ c ≤ 77) ∨ c = 85 ∨ c = 86))
    (h80 : ¬(80 ≤ c ∧ c ≤ 82))
    (h95 : ¬(95 ≤ c ∧ c ≤ 99)) :
    mapWeatherToIntensity c =
      { rain := 0, thunder := 0, snow := false, fog := false, hasPrecipitation := false } := by
  simp only [mapWeatherToIntensity]
  rw [if_neg h95, if_neg h80, if_neg h71, if_neg h61, if_neg h51, if_neg h45]

/-- Evaluation of `mapWeatherToIntensity` on the fog codes. -/
lemma mapWeatherToIntensity_fog {c : ℤ} (h : c = 45 ∨ c = 48) :
    mapWeatherToIntensity c =
      { rain := 0, thunder := 0, snow := false, fog := true, hasPrecipitation := false } := by
  simp only [mapWeatherToIntensity]
  rw [if_neg (show ¬(95 ≤ c ∧ c ≤ 99) by omega),
    if_neg (show ¬(80 ≤ c ∧ c ≤ 82) by omega),
    if_neg (show ¬((71 ≤ c ∧ c ≤ 77) ∨ c = 85 ∨ c = 86) by omega),
    if_neg (show ¬(61 ≤ c ∧ c ≤ 67) by omega),
    if_neg (show ¬(51 ≤ c ∧ c ≤ 57) by omega),
    if_pos h]

/-- Evaluation of `mapWeatherToIntensity` on the drizzle range 51-57. -/
lemma mapWeatherToIntensity_drizzle {c : ℤ} (h1 : 51 ≤ c) (h2 : c ≤ 57) :
    mapWeatherToIntensity c =
      { rain := if c ≤ 53 then 0.2 else if c ≤ 55 then 0.35 else 0.5,
        thunder := 0, snow := false, fog := false, hasPrecipitation := true } := by
  simp only [mapWeatherToIntensity]
  rw [if_neg (show ¬(95 ≤ c ∧ c ≤ 99) by omega),
    if_neg (show ¬(80 ≤ c ∧ c ≤ 82) by omega),
    if_neg (show ¬((71 ≤ c ∧ c ≤ 77) ∨ c = 85 ∨ c = 86) by omega),
    if_neg (show ¬(61 ≤ c ∧ c ≤ 67) by omega),
    if_pos (show 51 ≤ c ∧ c ≤ 57 from ⟨h1, h2⟩),
    if_neg (show ¬(c = 45 ∨ c = 48) by omega)]

/-- Evaluation of `mapWeatherToIntensity` on the rain range 61-67. -/
lemma mapWeatherToIntensity_rain {c : ℤ} (h1 : 61 ≤ c) (h2 : c ≤ 67) :
    mapWeatherToIntensity c =
      { rain := if c ≤ 63 then 0.4 else if c ≤ 65 then 0.7 else 0.9,
        thunder := 0, snow := false, fog := false, hasPrecipitation := true } := by
  simp only [mapWeatherToIntensity]
  rw [if_neg (show ¬(95 ≤ c ∧ c ≤ 99) by omega),
    if_neg (show ¬(80 ≤ c ∧ c ≤ 82) by omega),
    if_neg (show ¬((71 ≤ c ∧ c ≤ 77) ∨ c = 85 ∨ c = 86) by omega),
    if_pos (show 61 ≤ c ∧ c ≤ 67 from ⟨h1, h2⟩),
    if_neg (show ¬(51 ≤ c ∧ c ≤ 57) by omega),
    if_neg (show ¬(c = 45 ∨ c = 48) by omega)]

/-- Evaluation of `mapWeatherToIntensity` on the snow codes 71-77, 85, 86. -/
lemma mapWeatherToIntensity_snow {c : ℤ}
    (h : (71 ≤ c ∧ c ≤ 77) ∨ c = 85 ∨ c = 86) :
    mapWeatherToIntensity c =
      { rain := 0.3, thunder := 0, snow := true, fog := false, hasPrecipitation := true } := by
  simp only [mapWeatherToIntensity]
  rw [if_neg (show ¬(95 ≤ c ∧ c ≤ 99) by omega),
    if_neg (show ¬(80 ≤ c ∧ c ≤ 82) by omega),
    if_pos h,
    if_neg (show ¬(61 ≤ c ∧ c ≤ 67) by omega),
    if_neg (show ¬(51 ≤ c ∧ c ≤ 57) by omega),
    if_neg (show ¬(c = 45 ∨ c = 48) by omega)]

/-- Evaluation of `mapWeatherToIntensity` on the shower range 80-82. -/
lemma mapWeatherToIntensity_shower {c : ℤ} (h1 : 80 ≤ c) (h2 : c ≤ 82) :
    mapWeatherToIntensity c =
      { rain := if c = 80 then 0.5 else if c = 81 then 0.75 else 1.0,
        thunder := 0, snow := false, fog := false, hasPrecipitation := true } := by
  simp only [mapWeatherToIntensity]
  rw [if_neg (show ¬(95 ≤ c ∧ c ≤ 99) by omega),
    if_pos (show 80 ≤ c ∧ c ≤ 82 from ⟨h1, h2⟩),
    if_neg (show ¬((71 ≤ c ∧ c ≤ 77) ∨ c = 85 ∨ c = 86) by omega),
    if_neg (show ¬(61 ≤ c ∧ c ≤ 67) by omega),
    if_neg (show ¬(51 ≤ c ∧ c ≤ 57) by omega),
    if_neg (show ¬(c = 45 ∨ c = 48) by omega)]

/-- Evaluation of `mapWeatherToIntensity` on the thunderstorm range 95-99. -/
lemma mapWeatherToIntensity_thunderstorm {c : ℤ} (h1 : 95 ≤ c) (h2 : c ≤ 99) :
    mapWeatherToIntensity c =
      { rain := 0.8, thunder := if c = 95 then 0.6 else if c = 96 then 0.8 else 1.0,
        snow := false, fog := false, hasPrecipitation := true } := by
  simp only [mapWeatherToIntensity]
  rw [if_pos (show 95 ≤ c ∧ c ≤ 99 from ⟨h1, h2⟩),
    if_neg (show ¬(80 ≤ c ∧ c ≤ 82) by omega),
    if_neg (show ¬((71 ≤ c ∧ c ≤ 77) ∨ c = 85 ∨ c = 86) by omega),
    if_neg (show ¬(61 ≤ c ∧ c ≤ 67) by omega),
    if_neg (show ¬(51 ≤ c ∧ c ≤ 57) by omega),
    if_neg (show ¬(c = 45 ∨ c = 48) by omega)]

/-- The weather code lies in a drizzle, rain, snow, shower or thunderstorm
range (the precipitation-producing WMO ranges of the source table). -/
def inPrecipCodeRange (c : ℤ) : Prop :=
  (51 ≤ c ∧ c ≤ 57) ∨ (61 ≤ c ∧ c ≤ 67) ∨
  ((71 ≤ c ∧ c ≤ 77) ∨ c = 85 ∨ c = 86) ∨
  (80 ≤ c ∧ c ≤ 82) ∨ (95 ≤ c ∧ c ≤ 99)

instance (c : ℤ) : Decidable (inPrecipCodeRange c) := by
  unfold inPrecipCodeRange
  infer_instance

/-- The rain intensity always lies in `[0, 1]`. -/
lemma mapWeatherToIntensity_rain_bounds (c : ℤ) :
    0 ≤ (mapWeatherToIntensity c).rain ∧ (mapWeatherToIntensity c).rain ≤ 1 := by
  by_cases h95 : 95 ≤ c ∧ c ≤ 99
  · rw [mapWeatherToIntensity_thunderstorm h95.1 h95.2]; norm_num
  by_cases h80 : 80 ≤ c ∧ c ≤ 82
  · rw [mapWeatherToIntensity_shower h80.1 h80.2]; dsimp only; split_ifs <;> norm_num
  by_cases h71 : (71 ≤ c ∧ c ≤ 77) ∨ c = 85 ∨ c = 86
  · rw [mapWeatherToIntensity_snow h71]; norm_num
  by_cases h61 : 61 ≤ c ∧ c ≤ 67
  · rw [mapWeatherToIntensity_rain h61.1 h61.2]; dsimp only; split_ifs <;> norm_num
  by_cases h51 : 51 ≤ c ∧ c ≤ 57
  · rw [mapWeatherToIntensity_drizzle h51.1 h51.2]; dsimp only; split_ifs <;> norm_num
  by_cases h45 : c = 45 ∨ c = 48
  · rw [mapWeatherToIntensity_fog h45]; norm_num
  · rw [mapWeatherToIntensity_other h45 h51 h61 h71 h80 h95]; norm_num

/-- The thunder intensity always lies in `[0, 1]`. -/
lemma mapWeatherToIntensity_thunder_bounds (c : ℤ) :
    0 ≤ (mapWeatherToIntensity c).thunder ∧ (mapWeatherToIntensity c).thunder ≤ 1 := by
  by_cases h95 : 95 ≤ c ∧ c ≤ 99
  · rw [mapWeatherToIntensity_thunderstorm h95.1 h95.2]; dsimp only
    split_ifs <;> norm_num
  by_cases h80 : 80 ≤ c ∧ c ≤ 82
  · rw [mapWeatherToIntensity_shower h80.1 h80.2]; norm_num
  by_cases h71 : (71 ≤ c ∧ c ≤ 77) ∨ c = 85 ∨ c = 86
  · rw [mapWeatherToIntensity_snow h71]; norm_num
  by_cases h61 : 61 ≤ c ∧ c ≤ 67
  · rw [mapWeatherToIntensity_rain h61.1 h61.2]; norm_num
  by_cases h51 : 51 ≤ c ∧ c ≤ 57
  · rw [mapWeatherToIntensity_drizzle h51.1 h51.2]; norm_num
  by_cases h45 : c = 45 ∨ c = 48
  · rw [mapWeatherToIntensity_fog h45]; norm_num
  · rw [mapWeatherToIntensity_other h45 h51 h61 h71 h80 h95]; norm_num

/-- The fog flag is set exactly on codes 45 and 48. -/
lemma mapWeatherToIntensity_fog_iff (c : ℤ) :
    (mapWeatherToIntensity c).fog = true ↔ (c = 45 ∨ c = 48) := by
  constructor
  · intro h
    by_contra h45
    by_cases h95 : 95 ≤ c ∧ c ≤ 99
    · rw [mapWeatherToIntensity_thunderstorm h95.1 h95.2] at h; exact Bool.false_ne_true h
    by_cases h80 : 80 ≤ c ∧ c ≤ 82
    · rw [mapWeatherToIntensity_shower h80.1 h80.2] at h; exact Bool.false_ne_true h
    by_cases h71 : (71 ≤ c ∧ c ≤ 77) ∨ c = 85 ∨ c = 86
    · rw [mapWeatherToIntensity_snow h71] at h; exact Bool.false_ne_true h
    by_cases h61 : 61 ≤ c ∧ c ≤ 67
    · rw [mapWeatherToIntensity_rain h61.1 h61.2] at h; exact Bool.false_ne_true h
    by_cases h51 : 51 ≤ c ∧ c ≤ 57
    · rw [mapWeatherToIntensity_drizzle h51.1 h51.2] at h; exact Bool.false_ne_true h
    · rw [mapWeatherToIntensity_other h45 h51 h61 h71 h80 h95] at h
      exact Bool.false_ne_true h
  · intro h
    rw [mapWeatherToIntensity_fog h]

/-! ## Claims -/

/-- C3: `mapWeatherToIntensity` implements exactly the fixed WMO-code table:
fog only on 45/48; drizzle 51-57 with severity breakpoints 53/55; rain 61-67
with inclusive breakpoints 63/65 and precipitation set; snow 71-77/85/86
with rain 0.3; showers 80-82; thunderstorms 95-99 with rain 0.8; every other
code yields the all-zero record. -/
theorem C3_mapWeatherToIntensity_table :
    (∀ c : ℤ, (mapWeatherToIntensity c).fog = true ↔ (c = 45 ∨ c = 48)) ∧
    (∀ c : ℤ, 51 ≤ c → c ≤ 57 →
      mapWeatherToIntensity c =
        { rain := if c ≤ 53 then 0.2 else if c ≤ 55 then 0.35 else 0.5,
          thunder := 0, snow := false, fog := false, hasPrecipitation := true }) ∧
    (∀ c : ℤ, 61 ≤ c → c ≤ 67 →
      mapWeatherToIntensity c =
        { rain := if c ≤ 63 then 0.4 else if c ≤ 65 then 0.7 else 0.9,
          thunder := 0, snow := false, fog := false, hasPrecipitation := true }) ∧
    (∀ c : ℤ, (71 ≤ c ∧ c ≤ 77) ∨ c = 85 ∨ c = 86 →
      mapWeatherToIntensity c =
        { rain := 0.3, thunder := 0, snow := true, fog := false,
          hasPrecipitation := true }) ∧
    (∀ c : ℤ, 80 ≤ c → c ≤ 82 →
      mapWeatherToIntensity c =
        { rain := if c = 80 then 0.5 else if c = 81 then 0.75 else 1.0,
          thunder := 0, snow := false, fog := false, hasPrecipitation := true }) ∧
    (∀ c : ℤ, 95 ≤ c → c ≤ 99 →
      mapWeatherToIntensity c =
        { rain := 0.8, thunder := if c = 95 then 0.6 else if c = 96 then 0.8 else 1.0,
          snow := false, fog := false, hasPrecipitation := true }) ∧
    (∀ c : ℤ, ¬(c = 45 ∨ c = 48) → ¬inPrecipCodeRange c →
      mapWeatherToIntensity c =
        { rain := 0, thunder := 0, snow := false, fog := false,
          hasPrecipitation := false }) := by
  refine ⟨mapWeatherToIntensity_fog_iff,
    fun c h1 h2 => mapWeatherToIntensity_drizzle h1 h2,
    fun c h1 h2 => mapWeatherToIntensity_rain h1 h2,
    fun c h => mapWeatherToIntensity_snow h,
    fun c h1 h2 => mapWeatherToIntensity_shower h1 h2,
    fun c h1 h2 => mapWeatherToIntensity_thunderstorm h1 h2,
    fun c h45 hr => ?_⟩
  unfold inPrecipCodeRange at hr
  exact mapWeatherToIntensity_other h45 (by omega) (by omega) (by omega) (by omega) (by omega)

/-- Witness for C3 at concrete codes 45, 52, 64, 75, 81, 96 and 30. -/
theorem C3_mapWeatherToIntensity_table_witness :
    ((mapWeatherToIntensity 45).fog = true) ∧
    mapWeatherToIntensity 52 =
      { rain := 0.2, thunder := 0, snow := false, fog := false, hasPrecipitation := true } ∧
    mapWeatherToIntensity 64 =
      { rain := 0.7, thunder := 0, snow := false, fog := false, hasPrecipitation := true } ∧
    mapWeatherToIntensity 75 =
      { rain := 0.3, thunder := 0, snow := true, fog := false, hasPrecipitation := true } ∧
    mapWeatherToIntensity 81 =
      { rain := 0.75, thunder := 0, snow := false, fog := false, hasPrecipitation := true } ∧
    mapWeatherToIntensity 96 =
      { rain := 0.8, thunder := 0.8, snow := false, fog := false, hasPrecipitation := true } ∧
    mapWeatherToIntensity 30 =
      { rain := 0, thunder := 0, snow := false, fog := false, hasPrecipitation := false } := by
  refine ⟨?_, ?_, ?_, ?_, ?_, ?_, ?_⟩
  · exact (C3_mapWeatherToIntensity_table.1 45).2 (Or.inl rfl)
  · have h := C3_mapWeatherToIntensity_table.2.1 52 (by norm_num) (by norm_num)
    simpa using h
  · have h := C3_mapWeatherToIntensity_table.2.2.1 64 (by norm_num) (by norm_num)
    simpa using h
  · exact C3_mapWeatherToIntensity_table.2.2.2.1 75 (Or.inl (by norm_num))
  · have h := C3_mapWeatherToIntensity_table.2.2.2.2.1 81 (by norm_num) (by norm_num)
    simpa using h
  · have h := C3_mapWeatherToIntensity_table.2.2.2.2.2.1 96 (by norm_num) (by norm_num)
    simpa using h
  · exact C3_mapWeatherToIntensity_table.2.2.2.2.2.2 30 (by norm_num)
      (by unfold inPrecipCodeRange; omega)

/-- C4: for every weather code, `hasPrecipitation` is true exactly when the
rain intensity is positive, or snow is set, or the code lies in one of the
drizzle/rain/snow/shower/thunderstorm ranges. -/
theorem C4_hasPrecipitation_iff (c : ℤ) :
    (mapWeatherToIntensity c).hasPrecipitation = true ↔
      ((mapWeatherToIntensity c).rain > 0 ∨ (mapWeatherToIntensity c).snow = true ∨
        inPrecipCodeRange c) := by
  by_cases h95 : 95 ≤ c ∧ c ≤ 99
  · rw [mapWeatherToIntensity_thunderstorm h95.1 h95.2]
    exact iff_of_true rfl (Or.inr (Or.inr (by unfold inPrecipCodeRange; tauto)))
  by_cases h80 : 80 ≤ c ∧ c ≤ 82
  · rw [mapWeatherToIntensity_shower h80.1 h80.2]
    exact iff_of_true rfl (Or.inr (Or.inr (by unfold inPrecipCodeRange; tauto)))
  by_cases h71 : (71 ≤ c ∧ c ≤ 77) ∨ c = 85 ∨ c = 86
  · rw [mapWeatherToIntensity_snow h71]
    exact iff_of_true rfl (Or.inr (Or.inr (by unfold inPrecipCodeRange; tauto)))
  by_cases h61 : 61 ≤ c ∧ c ≤ 67
  · rw [mapWeatherToIntensity_rain h61.1 h61.2]
    exact iff_of_true rfl (Or.inr (Or.inr (by unfold inPrecipCodeRange; tauto)))
  by_cases h51 : 51 ≤ c ∧ c ≤ 57
  · rw [mapWeatherToIntensity_drizzle h51.1 h51.2]
    exact iff_of_true rfl (Or.inr (Or.inr (by unfold inPrecipCodeRange; tauto)))
  by_cases h45 : c = 45 ∨ c = 48
  · rw [mapWeatherToIntensity_fog h45]
    refine iff_of_false (by simp) ?_
    rintro (h | h | h)
    · exact absurd h (by norm_num)
    · exact Bool.false_ne_true h
    · unfold inPrecipCodeRange at h; omega
  · rw [mapWeatherToIntensity_other h45 h51 h61 h71 h80 h95]
    refine iff_of_false (by simp) ?_
    rintro (h | h | h)
    · exact absurd h (by norm_num)
    · exact Bool.false_ne_true h
    · unfold inPrecipCodeRange at h; omega

/-- C5: within each weather-code category (drizzle 51-57, rain 61-67,
showers 80-82, thunderstorms 95-99), a higher code never yields a strictly
lower rain value, and within 95-99 never a strictly lower thunder value. -/
theorem C5_category_monotone :
    (∀ c₁ c₂ : ℤ, 51 ≤ c₁ → c₁ ≤ c₂ → c₂ ≤ 57 →
      (mapWeatherToIntensity c₁).rain ≤ (mapWeatherToIntensity c₂).rain) ∧
    (∀ c₁ c₂ : ℤ, 61 ≤ c₁ → c₁ ≤ c₂ → c₂ ≤ 67 →
      (mapWeatherToIntensity c₁).rain ≤ (mapWeatherToIntensity c₂).rain) ∧
    (∀ c₁ c₂ : ℤ, 80 ≤ c₁ → c₁ ≤ c₂ → c₂ ≤ 82 →
      (mapWeatherToIntensity c₁).rain ≤ (mapWeatherToIntensity c₂).rain) ∧
    (∀ c₁ c₂ : ℤ, 95 ≤ c₁ → c₁ ≤ c₂ → c₂ ≤ 99 →
      (mapWeatherToIntensity c₁).rain ≤ (mapWeatherToIntensity c₂).rain ∧
      (mapWeatherToIntensity c₁).thunder ≤ (mapWeatherToIntensity c₂).thunder) := by
  refine ⟨fun c₁ c₂ h1 h12 h2 => ?_, fun c₁ c₂ h1 h12 h2 => ?_,
    fun c₁ c₂ h1 h12 h2 => ?_, fun c₁ c₂ h1 h12 h2 => ?_⟩
  · rw [mapWeatherToIntensity_drizzle h1 (by omega),
      mapWeatherToIntensity_drizzle (by omega) h2]
    dsimp only
    split_ifs <;> try norm_num
    all_goals omega
  · rw [mapWeatherToIntensity_rain h1 (by omega),
      mapWeatherToIntensity_rain (by omega) h2]
    dsimp only
    split_ifs <;> try norm_num
    all_goals omega
  · rw [mapWeatherToIntensity_shower h1 (by omega),
      mapWeatherToIntensity_shower (by omega) h2]
    dsimp only
    split_ifs <;> try norm_num
    all_goals omega
  · rw [mapWeatherToIntensity_thunderstorm h1 (by omega),
      mapWeatherToIntensity_thunderstorm (by omega) h2]
    dsimp only
    refine ⟨le_refl _, ?_⟩
    split_ifs <;> try norm_num
    all_goals omega

/-- Witness for C5 at codes 51 against 57 and 95 against 99. -/
theorem C5_category_monotone_witness :
    (mapWeatherToIntensity 51).rain ≤ (mapWeatherToIntensity 57).rain ∧
    (mapWeatherToIntensity 95).thunder ≤ (mapWeatherToIntensity 99).thunder :=
  ⟨C5_category_monotone.1 51 57 (by norm_num) (by norm_num) (by norm_num),
   (C5_category_monotone.2.2.2 95 99 (by norm_num) (by norm_num) (by norm_num)).2⟩

/-- Per-layer invariant: every emitted layer loops, has volume in `[0, 1]`,
and carries a sound ID that resolves in the registry. -/
def LayerOK (l : SoundLayer) : Prop :=
  l.loop = true ∧ 0 ≤ l.volume ∧ l.volume ≤ 1 ∧ (getAudioPath l.soundId).isSome = true

/-- Bounded quantification over the empty list is trivial. -/
lemma forall_mem_nil_iff {α : Type} (P : α → Prop) :
    (∀ x ∈ ([] : List α), P x) ↔ True := by simp

/-- Bounded quantification over a conditional list splits on the condition. -/
lemma forall_mem_ite_iff {α : Type} {q : Prop} [Decidable q] {L₁ L₂ : List α}
    (P : α → Prop) :
    (∀ x ∈ (if q then L₁ else L₂), P x) ↔
      ((q → ∀ x ∈ L₁, P x) ∧ (¬q → ∀ x ∈ L₂, P x)) := by
  split_ifs with hq
  · exact ⟨fun h => ⟨fun _ => h, fun hn => absurd hq hn⟩, fun h => h.1 hq⟩
  · exact ⟨fun h => ⟨fun hp => absurd hp hq, fun _ => h⟩, fun h => h.2 hq⟩

/-- The composer dispatch on the `city` biome string. -/
lemma getSoundLayers_city (t : TimeOfDay) (c : ℤ) (ws hum u1 u2 u3 : ℚ) :
    getSoundLayers "city" t c ws hum u1 u2 u3 =
      getCitySounds t (mapWeatherToIntensity c) ws
        (shouldIncludeBirds u1) (shouldIncludeCrickets u2) := rfl

/-- The composer dispatch on the `forest` biome string. -/
lemma getSoundLayers_forest (t : TimeOfDay) (c : ℤ) (ws hum u1 u2 u3 : ℚ) :
    getSoundLayers "forest" t c ws hum u1 u2 u3 =
      getForestSounds t (mapWeatherToIntensity c) ws
        (shouldIncludeBirds u1) (shouldIncludeCrickets u2) := rfl

/-- The composer dispatch on the `field` biome string. -/
lemma getSoundLayers_field (t : TimeOfDay) (c : ℤ) (ws hum u1 u2 u3 : ℚ) :
    getSoundLayers "field" t c ws hum u1 u2 u3 =
      getFieldSounds t (mapWeatherToIntensity c) ws
        (shouldIncludeBirds u1) (shouldIncludeCrickets u2) := rfl

/-- The composer dispatch on the `beach` biome string. -/
lemma getSoundLayers_beach (t : TimeOfDay) (c : ℤ) (ws hum u1 u2 u3 : ℚ) :
    getSoundLayers "beach" t c ws hum u1 u2 u3 =
      getBeachSounds t (mapWeatherToIntensity c) ws
        (shouldIncludeBirds u1) (shouldIncludeCrickets u2) := rfl

/-- The composer dispatch on the `lake` biome string. -/
lemma getSoundLayers_lake (t : TimeOfDay) (c : ℤ) (ws hum u1 u2 u3 : ℚ) :
    getSoundLayers "lake" t c ws hum u1 u2 u3 =
      getLakeSounds t (mapWeatherToIntensity c) ws
        (shouldIncludeBirds u1) (shouldIncludeCrickets u2) (shouldIncludeFrogs u3) := rfl

/-- The composer dispatch on the `ocean` biome string. -/
lemma getSoundLayers_ocean (t : TimeOfDay) (c : ℤ) (ws hum u1 u2 u3 : ℚ) :
    getSoundLayers "ocean" t c ws hum u1 u2 u3 =
      getOceanSounds t (mapWeatherToIntensity c) ws
        (shouldIncludeBirds u1) (shouldIncludeCrickets u2) := rfl

/-- The composer dispatch on the `desert` biome string. -/
lemma getSoundLayers_desert (t : TimeOfDay) (c : ℤ) (ws hum u1 u2 u3 : ℚ) :
    getSoundLayers "desert" t c ws hum u1 u2 u3 =
      getDesertSounds t (mapWeatherToIntensity c) ws
        (shouldIncludeBirds u1) (shouldIncludeCrickets u2) := rfl

/-- Every city layer satisfies the per-layer invariant. -/
lemma getCitySounds_ok (t : TimeOfDay) (w : WeatherIntensity) (ws : ℚ) (b c : Bool)
    (hr0 : 0 ≤ w.rain) (hr1 : w.rain ≤ 1) (ht0 : 0 ≤ w.thunder) (ht1 : w.thunder ≤ 1) :
    ∀ l ∈ getCitySounds t w ws b c, LayerOK l := by
  have hw := calculateWindVolume_bounds ws
  simp only [getCitySounds, LayerOK, List.forall_mem_append, forall_mem_ite_iff,
    List.forall_mem_cons, forall_mem_nil_iff, and_true, true_and]
  repeat' first | apply And.intro | intro h
  all_goals first
    | rfl
    | decide
    | (split_ifs <;> decide)
    | (try simp only [min_def, max_def]
       try split_ifs
       all_goals try norm_num
       all_goals linarith [hw.1, hw.2, hr0, hr1, ht0, ht1])

/-- Every forest layer satisfies the per-layer invariant. -/
lemma getForestSounds_ok (t : TimeOfDay) (w : WeatherIntensity) (ws : ℚ) (b c : Bool)
    (hr0 : 0 ≤ w.rain) (hr1 : w.rain ≤ 1) (ht0 : 0 ≤ w.thunder) (ht1 : w.thunder ≤ 1) :
    ∀ l ∈ getForestSounds t w ws b c, LayerOK l := by
  have hw := calculateWindVolume_bounds ws
  simp only [getForestSounds, LayerOK, List.forall_mem_append, forall_mem_ite_iff,
    List.forall_mem_cons, forall_mem_nil_iff, and_true, true_and]
  repeat' first | apply And.intro | intro h
  all_goals first
    | rfl
    | decide
    | (split_ifs <;> decide)
    | (try simp only [min_def, max_def]
       try split_ifs
       all_goals try norm_num
       all_goals linarith [hw.1, hw.2, hr0, hr1, ht0, ht1])

/-- Every field layer satisfies the per-layer invariant. -/
lemma getFieldSounds_ok (t : TimeOfDay) (w : WeatherIntensity) (ws : ℚ) (b c : Bool)
    (hr0 : 0 ≤ w.rain) (hr1 : w.rain ≤ 1) (ht0 : 0 ≤ w.thunder) (ht1 : w.thunder ≤ 1) :
    ∀ l ∈ getFieldSounds t w ws b c, LayerOK l := by
  have hw := calculateWindVolume_bounds ws
  simp only [getFieldSounds, LayerOK, List.forall_mem_append, forall_mem_ite_iff,
    List.forall_mem_cons, forall_mem_nil_iff, and_true, true_and]
  repeat' first | apply And.intro | intro h
  all_goals first
    | rfl
    | decide
    | (split_ifs <;> decide)
    | (try simp only [min_def, max_def]
       try split_ifs
       all_goals try norm_num
       all_goals linarith [hw.1, hw.2, hr0, hr1, ht0, ht1])

/-- Every beach layer satisfies the per-layer invariant. -/
lemma getBeachSounds_ok (t : TimeOfDay) (w : WeatherIntensity) (ws : ℚ) (b c : Bool)
    (hr0 : 0 ≤ w.rain) (hr1 : w.rain ≤ 1) (ht0 : 0 ≤ w.thunder) (ht1 : w.thunder ≤ 1) :
    ∀ l ∈ getBeachSounds t w ws b c, LayerOK l := by
  have hw := calculateWindVolume_bounds ws
  simp only [getBeachSounds, LayerOK, List.forall_mem_append, forall_mem_ite_iff,
    List.forall_mem_cons, forall_mem_nil_iff, and_true, true_and]
  repeat' first | apply And.intro | intro h
  all_goals first
    | rfl
    | decide
    | (split_ifs <;> decide)
    | (try simp only [min_def, max_def]
       try split_ifs
       all_goals try norm_num
       all_goals linarith [hw.1, hw.2, hr0, hr1, ht0, ht1])

/-- Every lake layer satisfies the per-layer invariant. -/
lemma getLakeSounds_ok (t : TimeOfDay) (w : WeatherIntensity) (ws : ℚ) (b c f : Bool)
    (hr0 : 0 ≤ w.rain) (hr1 : w.rain ≤ 1) (ht0 : 0 ≤ w.thunder) (ht1 : w.thunder ≤ 1) :
    ∀ l ∈ getLakeSounds t w ws b c f, LayerOK l := by
  have hw := calculateWindVolume_bounds ws
  simp only [getLakeSounds, LayerOK, List.forall_mem_append, forall_mem_ite_iff,
    List.forall_mem_cons, forall_mem_nil_iff, and_true, true_and]
  repeat' first | apply And.intro | intro h
  all_goals first
    | rfl
    | decide
    | (split_ifs <;> decide)
    | (try simp only [min_def, max_def]
       try split_ifs
       all_goals try norm_num
       all_goals linarith [hw.1, hw.2, hr0, hr1, ht0, ht1])

/-- Every ocean layer satisfies the per-layer invariant. -/
lemma getOceanSounds_ok (t : TimeOfDay) (w : WeatherIntensity) (ws : ℚ) (b c : Bool)
    (hr0 : 0 ≤ w.rain) (hr1 : w.rain ≤ 1) (ht0 : 0 ≤ w.thunder) (ht1 : w.thunder ≤ 1) :
    ∀ l ∈ getOceanSounds t w ws b c, LayerOK l := by
  have hw := calculateWindVolume_bounds ws
  simp only [getOceanSounds, LayerOK, List.forall_mem_append, forall_mem_ite_iff,
    List.forall_mem_cons, forall_mem_nil_iff, and_true, true_and]
  repeat' first | apply And.intro | intro h
  all_goals first
    | rfl
    | decide
    | (split_ifs <;> decide)
    | (try simp only [min_def, max_def]
       try split_ifs
       all_goals try norm_num
       all_goals linarith [hw.1, hw.2, hr0, hr1, ht0, ht1])

/-- Every desert layer satisfies the per-layer invariant. -/
lemma getDesertSounds_ok (t : TimeOfDay) (w : WeatherIntensity) (ws : ℚ) (b c : Bool)
    (hr0 : 0 ≤ w.rain) (hr1 : w.rain ≤ 1) (ht0 : 0 ≤ w.thunder) (ht1 : w.thunder ≤ 1) :
    ∀ l ∈ getDesertSounds t w ws b c, LayerOK l := by
  have hw := calculateWindVolume_bounds ws
  simp only [getDesertSounds, LayerOK, List.forall_mem_append, forall_mem_ite_iff,
    List.forall_mem_cons, forall_mem_nil_iff, and_true, true_and]
  repeat' first | apply And.intro | intro h
  all_goals first
    | rfl
    | decide
    | (split_ifs <;> decide)
    | (try simp only [min_def, max_def]
       try split_ifs
       all_goals try norm_num
       all_goals linarith [hw.1, hw.2, hr0, hr1, ht0, ht1])

/-- Every layer produced for a known biome satisfies the per-layer invariant. -/
lemma getSoundLayers_known_ok :
    ∀ biome ∈ knownBiomes, ∀ (t : TimeOfDay) (c : ℤ) (ws hum u1 u2 u3 : ℚ),
      ∀ l ∈ getSoundLayers biome t c ws hum u1 u2 u3, LayerOK l := by
  intro biome hb t c ws hum u1 u2 u3
  have hr := mapWeatherToIntensity_rain_bounds c
  have ht := mapWeatherToIntensity_thunder_bounds c
  fin_cases hb
  · rw [getSoundLayers_city]
    exact getCitySounds_ok _ _ _ _ _ hr.1 hr.2 ht.1 ht.2
  · rw [getSoundLayers_forest]
    exact getForestSounds_ok _ _ _ _ _ hr.1 hr.2 ht.1 ht.2
  · rw [getSoundLayers_field]
    exact getFieldSounds_ok _ _ _ _ _ hr.1 hr.2 ht.1 ht.2
  · rw [getSoundLayers_beach]
    exact getBeachSounds_ok _ _ _ _ _ hr.1 hr.2 ht.1 ht.2
  · rw [getSoundLayers_lake]
    exact getLakeSounds_ok _ _ _ _ _ _ hr.1 hr.2 ht.1 ht.2
  · rw [getSoundLayers_ocean]
    exact getOceanSounds_ok _ _ _ _ _ hr.1 hr.2 ht.1 ht.2
  · rw [getSoundLayers_desert]
    exact getDesertSounds_ok _ _ _ _ _ hr.1 hr.2 ht.1 ht.2

/-- Every known biome's output contains a base-category layer. -/
lemma getSoundLayers_known_base :
    ∀ biome ∈ knownBiomes, ∀ (t : TimeOfDay) (c : ℤ) (ws hum u1 u2 u3 : ℚ),
      ∃ l ∈ getSoundLayers biome t c ws hum u1 u2 u3, l.category = "base" := by
  intro biome hb t c ws hum u1 u2 u3
  fin_cases hb
  · refine ⟨SoundLayer.mk "traffic_medium_far" 0.28 true "base" (some 4) none,
      ?_, rfl⟩
    rw [getSoundLayers_city]
    simp [getCitySounds]
  · refine ⟨SoundLayer.mk "wind_forest_medium"
      (max 0.3 (calculateWindVolume ws * 0.7)) true "base" (some 4) none, ?_, rfl⟩
    rw [getSoundLayers_forest]
    simp [getForestSounds]
  · refine ⟨SoundLayer.mk
      (if ws > 20 then "wind_field_strong" else "wind_grass_strong")
      (max 0.4 (calculateWindVolume ws * 0.9)) true "base" (some 3) none, ?_, rfl⟩
    rw [getSoundLayers_field]
    simp [getFieldSounds]
  · refine ⟨SoundLayer.mk "waves_light_far" 0.28 true "base" (some 8) none,
      ?_, rfl⟩
    rw [getSoundLayers_beach]
    simp [getBeachSounds]
  · refine ⟨SoundLayer.mk "waves_small_close" 0.5 true "base" none none, ?_, rfl⟩
    rw [getSoundLayers_lake]
    simp [getLakeSounds]
  · refine ⟨SoundLayer.mk "waves_medium_far" 0.62 true "base" none none, ?_, rfl⟩
    rw [getSoundLayers_ocean]
    simp [getOceanSounds]
  · refine ⟨SoundLayer.mk "desert-wind_light"
      (max 0.32 (calculateWindVolume ws * 0.7)) true "base" (some 3) none, ?_, rfl⟩
    rw [getSoundLayers_desert]
    simp [getDesertSounds]

/-- C9: every sound ID emitted by the composer for a known biome is a key of
the registry, so `getAudioPath` never reaches its error branch on composer
output. -/
theorem C9_composer_ids_registered :
    ∀ biome ∈ knownBiomes, ∀ (t : TimeOfDay) (c : ℤ) (ws hum u1 u2 u3 : ℚ),
      ∀ l ∈ getSoundLayers biome t c ws hum u1 u2 u3,
        (lookupId l.soundId SOUND_PATH_MAP).isSome = true ∧
        (getAudioPath l.soundId).isSome = true := by
  intro biome hb t c ws hum u1 u2 u3 l hl
  have hok := getSoundLayers_known_ok biome hb t c ws hum u1 u2 u3 l hl
  have hpath := hok.2.2.2
  refine ⟨?_, hpath⟩
  unfold getAudioPath at hpath
  cases hlk : lookupId l.soundId SOUND_PATH_MAP with
  | none => rw [hlk] at hpath; exact absurd hpath (by simp)
  | some p => rfl

/-- Witness for C9: the first layer of the city night soundscape resolves. -/
theorem C9_composer_ids_registered_witness :
    (lookupId "traffic_medium_close" SOUND_PATH_MAP).isSome = true ∧
    (getAudioPath "traffic_medium_close").isSome = true := by
  refine C9_composer_ids_registered "city" (by decide) TimeOfDay.night 61 15 50 1 1 1
    (SoundLayer.mk "traffic_medium_close"
      (if TimeOfDay.night = TimeOfDay.night then 0.4 else 0.55) true "base"
      none none) ?_
  rw [getSoundLayers_city]
  simp [getCitySounds]

/-- C10: for every known biome and all inputs and draw outcomes, the
returned list is non-empty, contains a base-category layer, and every layer
loops with volume inside `[0, 1]`. -/
theorem C10_known_biome_invariants :
    ∀ biome ∈ knownBiomes, ∀ (t : TimeOfDay) (c : ℤ) (ws hum u1 u2 u3 : ℚ),
      getSoundLayers biome t c ws hum u1 u2 u3 ≠ [] ∧
      (∃ l ∈ getSoundLayers biome t c ws hum u1 u2 u3, l.category = "base") ∧
      (∀ l ∈ getSoundLayers biome t c ws hum u1 u2 u3,
        l.loop = true ∧ 0 ≤ l.volume ∧ l.volume ≤ 1) := by
  intro biome hb t c ws hum u1 u2 u3
  obtain ⟨l₀, hl₀, hcat⟩ := getSoundLayers_known_base biome hb t c ws hum u1 u2 u3
  refine ⟨List.ne_nil_of_mem hl₀, ⟨l₀, hl₀, hcat⟩, fun l hl => ?_⟩
  have hok := getSoundLayers_known_ok biome hb t c ws hum u1 u2 u3 l hl
  exact ⟨hok.1, hok.2.1, hok.2.2.1⟩

/-- Witness for C10 at the lake biome on a stormy night. -/
theorem C10_known_biome_invariants_witness :
    getSoundLayers "lake" TimeOfDay.night 95 30 80 0.1 0.1 0.1 ≠ [] ∧
    (∃ l ∈ getSoundLayers "lake" TimeOfDay.night 95 30 80 0.1 0.1 0.1,
      l.category = "base") ∧
    (∀ l ∈ getSoundLayers "lake" TimeOfDay.night 95 30 80 0.1 0.1 0.1,
      l.loop = true ∧ 0 ≤ l.volume ∧ l.volume ≤ 1) :=
  C10_known_biome_invariants "lake" (by decide) TimeOfDay.night 95 30 80 0.1 0.1 0.1

/-- Without precipitation the thunder intensity is zero (thunderstorm codes
always set `hasPrecipitation`). -/
lemma mapWeatherToIntensity_thunder_eq_zero_of_no_precip {c : ℤ}
    (h : (mapWeatherToIntensity c).hasPrecipitation = false) :
    (mapWeatherToIntensity c).thunder = 0 := by
  by_cases h95 : 95 ≤ c ∧ c ≤ 99
  · rw [mapWeatherToIntensity_thunderstorm h95.1 h95.2] at h
    exact absurd h (by simp)
  by_cases h80 : 80 ≤ c ∧ c ≤ 82
  · rw [mapWeatherToIntensity_shower h80.1 h80.2] at h
    exact absurd h (by simp)
  by_cases h71 : (71 ≤ c ∧ c ≤ 77) ∨ c = 85 ∨ c = 86
  · rw [mapWeatherToIntensity_snow h71] at h
    exact absurd h (by simp)
  by_cases h61 : 61 ≤ c ∧ c ≤ 67
  · rw [mapWeatherToIntensity_rain h61.1 h61.2] at h
    exact absurd h (by simp)
  by_cases h51 : 51 ≤ c ∧ c ≤ 57
  · rw [mapWeatherToIntensity_drizzle h51.1 h51.2] at h
    exact absurd h (by simp)
  by_cases h45 : c = 45 ∨ c = 48
  · rw [mapWeatherToIntensity_fog h45]
  · rw [mapWeatherToIntensity_other h45 h51 h61 h71 h80 h95]

/-- Counterexample to C1 as stated: at weather code 61 (slight rain), time
of day `day`, wind 5 kph and draws that exclude all accents, the desert
composition contains a layer (`rain_light`) whose sound ID resolves to the
`water/` directory of the registry. -/
theorem C1_counterexample_desert_water_layer :
    ∃ l ∈ getSoundLayers "desert" TimeOfDay.day 61 5 50 1 1 1,
      resolvesToDir l.soundId "water" := by
  have h61a : (61 : ℤ) ≤ 61 := le_refl _
  have h61b : (61 : ℤ) ≤ 67 := by norm_num
  have hw : mapWeatherToIntensity 61 =
      { rain := 0.4, thunder := 0, snow := false, fog := false,
        hasPrecipitation := true } := by
    rw [mapWeatherToIntensity_rain h61a h61b]
    norm_num
  have hb : shouldIncludeBirds 1 = false := by
    simp only [shouldIncludeBirds, BIRD_SOUND_PROBABILITY, decide_eq_false_iff_not]
    norm_num
  have hc : shouldIncludeCrickets 1 = false := by
    simp only [shouldIncludeCrickets, CRICKET_SOUND_PROBABILITY, decide_eq_false_iff_not]
    norm_num
  rw [getSoundLayers_desert, hw, hb, hc]
  refine ⟨SoundLayer.mk "rain_light" (min 0.5 (0.4 * 0.65)) true "weather"
    (some 6) none, ?_, by decide⟩
  simp only [getDesertSounds]
  norm_num

/-- C1 (amended): for every draw outcome the fixed desert composition
`('desert', day, 0, 5, 50)` contains a base-category layer resolving to the
`wind/` directory; and for every weather code whose intensity carries no
precipitation, any time of day, wind speed, humidity and draw outcome, the
desert output contains no layer resolving to the `water/` directory. (The
original unconditional no-water claim is refuted by
the counterexample: rainy weather codes add `water/` rain layers.) -/
theorem C1_amended_desert_wind_no_water :
    (∀ u1 u2 u3 : ℚ,
      ∃ l ∈ getSoundLayers "desert" TimeOfDay.day 0 5 50 u1 u2 u3,
        l.category = "base" ∧ resolvesToDir l.soundId "wind") ∧
    (∀ (t : TimeOfDay) (c : ℤ) (ws hum u1 u2 u3 : ℚ),
      (mapWeatherToIntensity c).hasPrecipitation = false →
      ∀ l ∈ getSoundLayers "desert" t c ws hum u1 u2 u3,
        ¬ resolvesToDir l.soundId "water") := by
  constructor
  · intro u1 u2 u3
    refine ⟨SoundLayer.mk "wind_field_strong"
      (max 0.2 (calculateWindVolume 5 * 0.45)) true "base" (some 6) (some 10),
      ?_, rfl, by decide⟩
    rw [getSoundLayers_desert]
    simp [getDesertSounds]
  · intro t c ws hum u1 u2 u3 hnp
    have ht0 := mapWeatherToIntensity_thunder_eq_zero_of_no_precip hnp
    rw [getSoundLayers_desert]
    simp only [getDesertSounds]
    rw [hnp, ht0]
    simp only [List.forall_mem_append, forall_mem_ite_iff, List.forall_mem_cons,
      forall_mem_nil_iff, and_true, true_and, implies_true]
    repeat' first
      | apply And.intro
      | (refine fun hcond => absurd hcond ?_; exact Bool.false_ne_true)
      | (refine fun hcond => absurd hcond ?_; exact lt_irrefl 0)
      | (refine fun hcond => absurd hcond ?_; decide)
      | intro h

/-- Witness for the amended C1: the clear-sky desert day composition at the
given concrete draws has a base wind-directory layer, and a windy clear
desert night contains no water-directory layer. -/
theorem C1_amended_desert_wind_no_water_witness :
    (∃ l ∈ getSoundLayers "desert" TimeOfDay.day 0 5 50 0.5 0.5 0.5,
      l.category = "base" ∧ resolvesToDir l.soundId "wind") ∧
    (∀ l ∈ getSoundLayers "desert" TimeOfDay.night 0 20 50 0.1 0.1 0.1,
      ¬ resolvesToDir l.soundId "water") :=
  ⟨C1_amended_desert_wind_no_water.1 0.5 0.5 0.5,
   C1_amended_desert_wind_no_water.2 TimeOfDay.night 0 20 50 0.1 0.1 0.1 (by decide)⟩

/-- C6: the composer never fails: `getSoundLayers` is a total function (the
embedding returns a plain list on every input, with no error case), and for
any biome string outside the seven enumerated biomes the `switch` falls
through and the returned list is empty. -/
theorem C6_unknown_biome_empty (biome : String) (t : TimeOfDay) (c : ℤ)
    (ws hum u1 u2 u3 : ℚ) (hb : biome ∉ knownBiomes) :
    getSoundLayers biome t c ws hum u1 u2 u3 = [] := by
  simp only [knownBiomes, List.mem_cons, List.not_mem_nil, or_false, not_or] at hb
  obtain ⟨h1, h2, h3, h4, h5, h6, h7⟩ := hb
  simp only [getSoundLayers]
  rw [if_neg h1, if_neg h2, if_neg h3, if_neg h4, if_neg h5, if_neg h6, if_neg h7]

/-- Witness for C6 at the unknown biome string `tundra`. -/
theorem C6_unknown_biome_empty_witness :
    getSoundLayers "tundra" TimeOfDay.day 0 5 50 0 0 0 = [] :=
  C6_unknown_biome_empty "tundra" TimeOfDay.day 0 5 50 0 0 0 (by decide)

/-- Every path stored in the registry is a non-empty string. -/
lemma SOUND_PATH_MAP_snd_ne_empty : ∀ kv ∈ SOUND_PATH_MAP, kv.2 ≠ "" := by decide

/-- A successful lookup finds a pair of the association list. -/
lemma lookupId_mem {s p : String} :
    ∀ {l : List (String × String)}, lookupId s l = some p → (s, p) ∈ l := by
  intro l
  induction l with
  | nil => intro h; simp [lookupId] at h
  | cons kv rest ih =>
    obtain ⟨k, v⟩ := kv
    intro h
    simp only [lookupId] at h
    split_ifs at h with hk
    · obtain rfl := hk
      obtain rfl : v = p := Option.some_injective _ h
      exact List.mem_cons_self _ _
    · exact List.mem_cons_of_mem _ (ih h)

/-- Counterexample to C7 as stated: `toString` is not a key of the registry,
yet under JavaScript lookup semantics `getAudioPath("toString")` finds the
inherited `Object.prototype.toString`, passes the truthy guard and does not
throw, refuting the raises-iff-unregistered biconditional. -/
theorem C7_counterexample_proto_lookup :
    lookupId "toString" SOUND_PATH_MAP = none ∧
    getAudioPathJs "toString" ≠ JsAudioPathResult.thrown := by decide

/-- C7 (amended): `getAudioPath` raises exactly when the sound ID is neither
an own key of the static registry nor a property name inherited from
`Object.prototype`; on every registered ID it deterministically returns
exactly the registry entry prefixed with `/audio/`. (The original claim's
iff fails on inherited names such as `toString`, where the truthy inherited
member suppresses the throw; see the counterexample.) -/
theorem C7_amended_getAudioPath_spec :
    (∀ s : String, getAudioPathJs s = JsAudioPathResult.thrown ↔
      (lookupId s SOUND_PATH_MAP = none ∧ s ∉ OBJECT_PROTOTYPE_PROPS)) ∧
    (∀ s p : String, lookupId s SOUND_PATH_MAP = some p →
      getAudioPathJs s = JsAudioPathResult.path ("/audio/" ++ p)) := by
  have hres : ∀ s p : String, lookupId s SOUND_PATH_MAP = some p →
      getAudioPathJs s = JsAudioPathResult.path ("/audio/" ++ p) := by
    intro s p hl
    have hne : p ≠ "" := SOUND_PATH_MAP_snd_ne_empty (s, p) (lookupId_mem hl)
    unfold getAudioPathJs
    rw [hl]
    exact if_neg hne
  refine ⟨fun s => ?_, hres⟩
  cases hl : lookupId s SOUND_PATH_MAP with
  | some p =>
    rw [hres s p hl]
    simp [hl]
  | none =>
    simp only [getAudioPathJs, hl]
    by_cases hm : s ∈ OBJECT_PROTOTYPE_PROPS
    · rw [if_pos hm]
      simp [hm]
    · rw [if_neg hm]
      simp [hm]

/-- Witness for the amended C7 on the registered `rain_light` and a name
that is neither registered nor inherited. -/
theorem C7_amended_getAudioPath_spec_witness :
    getAudioPathJs "rain_light" =
      JsAudioPathResult.path "/audio/water/water-rain-light-01.ogg" ∧
    getAudioPathJs "no_such_sound" = JsAudioPathResult.thrown :=
  ⟨C7_amended_getAudioPath_spec.2 "rain_light" "water/water-rain-light-01.ogg"
    (by decide),
   (C7_amended_getAudioPath_spec.1 "no_such_sound").2 ⟨by decide, by decide⟩⟩

/-- C8: the composer is deterministic apart from the three Bernoulli draws:
each gating function compares its single per-call draw against the fixed
threshold 0.3, and two calls with equal arguments and equal draw outcomes
return identical layer lists. -/
theorem C8_deterministic_given_draws :
    (∀ u : ℚ, shouldIncludeBirds u = decide (u < 0.3)) ∧
    (∀ u : ℚ, shouldIncludeCrickets u = decide (u < 0.3)) ∧
    (∀ u : ℚ, shouldIncludeFrogs u = decide (u < 0.3)) ∧
    (∀ (biome : String) (t : TimeOfDay) (c : ℤ) (ws hum u1 u2 u3 v1 v2 v3 : ℚ),
      shouldIncludeBirds u1 = shouldIncludeBirds v1 →
      shouldIncludeCrickets u2 = shouldIncludeCrickets v2 →
      shouldIncludeFrogs u3 = shouldIncludeFrogs v3 →
      getSoundLayers biome t c ws hum u1 u2 u3 =
        getSoundLayers biome t c ws hum v1 v2 v3) := by
  refine ⟨fun u => rfl, fun u => rfl, fun u => rfl, ?_⟩
  intro biome t c ws hum u1 u2 u3 v1 v2 v3 hb hc hf
  simp only [getSoundLayers, hb, hc, hf]

/-- Witness for C8: two calls with distinct draw values below the threshold
produce the same forest soundscape. -/
theorem C8_deterministic_given_draws_witness :
    getSoundLayers "forest" TimeOfDay.day 61 15 50 0.1 0.1 0.1 =
      getSoundLayers "forest" TimeOfDay.day 61 15 50 0.2 0.2 0.2 := by
  have hb : shouldIncludeBirds 0.1 = shouldIncludeBirds 0.2 := by
    simp only [shouldIncludeBirds, BIRD_SOUND_PROBABILITY, decide_eq_decide]
    norm_num
  have hc : shouldIncludeCrickets 0.1 = shouldIncludeCrickets 0.2 := by
    simp only [shouldIncludeCrickets, CRICKET_SOUND_PROBABILITY, decide_eq_decide]
    norm_num
  have hf : shouldIncludeFrogs 0.1 = shouldIncludeFrogs 0.2 := by
    simp only [shouldIncludeFrogs, FROG_SOUND_PROBABILITY, decide_eq_decide]
    norm_num
  exact C8_deterministic_given_draws.2.2.2 "forest" TimeOfDay.day 61 15 50
    0.1 0.1 0.1 0.2 0.2 0.2 hb hc hf

/-- C2: `calculateWindVolume` is a continuous (witnessed in epsilon-delta
form), monotone non-decreasing realization of the four-segment
piecewise-linear wind curve, with exact values `0.2` at 10 kph and `0.8`
at 40 kph, and its result always lies in `[0, 1]`. -/
theorem C2_calculateWindVolume_curve :
    (∀ x y : ℚ, x ≤ y → calculateWindVolume x ≤ calculateWindVolume y) ∧
    (∀ x ε : ℚ, 0 < ε → ∃ δ : ℚ, 0 < δ ∧ ∀ y : ℚ, |y - x| < δ →
      |calculateWindVolume y - calculateWindVolume x| < ε) ∧
    (∀ w : ℚ, w < 10 → calculateWindVolume w = 0.2) ∧
    (∀ w : ℚ, 10 ≤ w → w < 25 →
      calculateWindVolume w = 0.2 + ((w - 10) / 15) * 0.3) ∧
    (∀ w : ℚ, 25 ≤ w → w < 40 →
      calculateWindVolume w = 0.5 + ((w - 25) / 15) * 0.3) ∧
    (∀ w : ℚ, 40 ≤ w →
      calculateWindVolume w = min 1.0 (0.8 + ((w - 40) / 20) * 0.2)) ∧
    calculateWindVolume 10 = 0.2 ∧
    calculateWindVolume 40 = 0.8 ∧
    (∀ w : ℚ, 0 ≤ calculateWindVolume w ∧ calculateWindVolume w ≤ 1) := by
  refine ⟨fun x y h => calculateWindVolume_mono h, ?_, ?_, ?_, ?_, ?_, ?_, ?_, ?_⟩
  · intro x ε hε
    refine ⟨50 * ε, by linarith, fun y hy => ?_⟩
    calc |calculateWindVolume y - calculateWindVolume x|
        ≤ |y - x| * (1 / 50) := calculateWindVolume_abs_lipschitz x y
      _ < (50 * ε) * (1 / 50) := by
          have : (0:ℚ) ≤ |y - x| := abs_nonneg _
          nlinarith
      _ = ε := by ring
  · intro w hw
    unfold calculateWindVolume
    rw [if_pos hw]
  · intro w hw1 hw2
    unfold calculateWindVolume
    rw [if_neg (by linarith), if_pos hw2]
  · intro w hw1 hw2
    unfold calculateWindVolume
    rw [if_neg (by linarith), if_neg (by linarith), if_pos hw2]
  · intro w hw
    unfold calculateWindVolume
    rw [if_neg (by linarith), if_neg (by linarith), if_neg (by linarith)]
  · norm_num [calculateWindVolume]
  · norm_num [calculateWindVolume]
  · intro w
    have h := calculateWindVolume_bounds w
    exact ⟨by linarith [h.1], h.2⟩

/-- Witness for C2 at concrete inputs. -/
theorem C2_calculateWindVolume_curve_witness :
    calculateWindVolume 12 ≤ calculateWindVolume 37 ∧
    calculateWindVolume 5 = 0.2 ∧
    calculateWindVolume 20 = 0.2 + ((20 - 10) / 15) * 0.3 ∧
    calculateWindVolume 30 = 0.5 + ((30 - 25) / 15) * 0.3 ∧
    calculateWindVolume 50 = min 1.0 (0.8 + ((50 - 40) / 20) * 0.2) :=
  ⟨C2_calculateWindVolume_curve.1 12 37 (by norm_num),
   C2_calculateWindVolume_curve.2.2.1 5 (by norm_num),
   C2_calculateWindVolume_curve.2.2.2.1 20 (by norm_num) (by norm_num),
   C2_calculateWindVolume_curve.2.2.2.2.1 30 (by norm_num) (by norm_num),
   C2_calculateWindVolume_curve.2.2.2.2.2.1 50 (by norm_num)⟩

end Hearaway
